import Mathlib

/-!
Verification of RudyAIBot, a retrieval-augmented-generation chat assistant.

Shallow embedding of the three source modules:
- `src/pipeline.py`  : the query orchestrator (`RAGService`);
- `src/bot.py`       : the chat front end (`handle_message`, `update_kb`);
- `src/ingestion.py` : the ingestion job (`build_index`).

External effects (the hosted generative client, the embedding model, the
vector database) enter the model as explicit parameters carrying their
outcome (`Except` for calls that may raise); Python exceptions are carried
as values of `PyErr`, with the `SystemExit` raised by `sys.exit` kept
distinct because `except Exception` does not catch it.
-/

/-- A stored chunk of source-document text with its source metadata. -/
structure Chunk where
  text : String
  source : String
deriving DecidableEq, Repr

/-- A Python exception as seen by the handlers in `RAGService.query`
(`pipeline.py` lines 141 and 146): either a `google.genai` `ClientError`
or any other `Exception`; the string is `str(e)`. -/
inductive PyErr where
  | clientError (msg : String)
  | otherErr (msg : String)
deriving DecidableEq, Repr

/-- The generative client response object: it either exposes a `.text`
attribute, or it is some other object whose `str()` rendering is carried. -/
inductive LlmResponse where
  | withText (text : String)
  | noText (strRepr : String)
deriving DecidableEq, Repr

/-- Extraction at `pipeline.py` line 131:
`response_obj.text if hasattr(response_obj, "text") else str(response_obj)`. -/
def responseText : LlmResponse → String
  | .withText t => t
  | .noText s => s

/-- The value `RAGService.query` returns: a bare answer string when
`return_sources=False`, or the pair `(answer, retrieved_chunks)` when
`return_sources=True`.  The function always returns one of these, which is
how the embedding expresses that `query` never propagates an exception. -/
inductive QueryOut where
  | answer (s : String)
  | answerWithSources (s : String) (chunks : List Chunk)
deriving DecidableEq, Repr

/-- The answer string carried by a `QueryOut`. -/
def QueryOut.answerText : QueryOut → String
  | .answer s => s
  | .answerWithSources s _ => s

/-- Fixed quota-exceeded message (`pipeline.py` line 142). -/
def quotaExceededMsg : String := "⏳ Quota exceeded. Please wait 10-20 seconds and try again."

/-- Generic error message (`pipeline.py` line 148). -/
def genericErrorMsg : String := "❌ I'm sorry, I encountered an error."

/-- Non-quota `ClientError` message, `f"API Error: {e}"` (`pipeline.py` line 142). -/
def apiErrorMsg (m : String) : String := "API Error: " ++ m

/-- Python substring containment `needle in hay`, on the character lists of
the two strings. -/
def containsSeq (needle : List Char) : List Char → Bool
  | [] => needle.isEmpty
  | c :: t => needle.isPrefixOf (c :: t) || containsSeq needle t

/-- The quota test at `pipeline.py` line 142:
`"429" in str(e) or "RESOURCE_EXHAUSTED" in str(e)`. -/
def isQuotaError (m : String) : Bool :=
  containsSeq "429".toList m.toList || containsSeq "RESOURCE_EXHAUSTED".toList m.toList

/-- Modelled from the spec: the vector-store retrieval step is performed by
the external datapizza `QdrantVectorstore` wrapper, which is not part of this
repository.  Per the spec it returns the top-k nearest stored chunks for the
query vector; `ranked` is the nearest-first ranking of the stored chunks
(a permutation of the collection contents), so retrieval truncates it to `k`.
An absent or empty collection yields the empty ranking, hence an empty
result, rather than an error (spec section 4.1, edge cases). -/
def qdrantRetrieve (ranked : List Chunk) (k : Nat) : List Chunk :=
  ranked.take k

/-- The body of `self.pipeline.run` as wired in `RAGService.__init__`
(`pipeline.py` lines 96-108): embed the question, retrieve top-k chunks,
render the prompt over the chunk texts, call the generative client.
`embedStep` is the outcome of the embedding step (it may raise), `llm` is
the generative client called on the question and the retrieved chunk texts. -/
def pipelineRun (embedStep : Except String Unit)
    (llm : String → List String → Except PyErr LlmResponse)
    (ranked : List Chunk) (k : Nat) (user_input : String) :
    Except PyErr (LlmResponse × List Chunk) :=
  match embedStep with
  | .error m => .error (.otherErr m)
  | .ok _ =>
    let chunks := qdrantRetrieve ranked k
    match llm user_input (chunks.map Chunk.text) with
    | .error e => .error e
    | .ok r => .ok (r, chunks)

/-- The `try/except` structure of `RAGService.query` (`pipeline.py`
lines 121-149), applied to the outcome of `self.pipeline.run`:
on success extract the response text (and the sources when requested);
a `ClientError` becomes the quota message or `API Error: ...` depending on
the quota test; any other exception becomes the generic error message. -/
def queryHandle (runResult : Except PyErr (LlmResponse × List Chunk))
    (return_sources : Bool) : QueryOut :=
  match runResult with
  | .ok (resp, retrieved) =>
    let response_text := responseText resp
    if return_sources then .answerWithSources response_text retrieved
    else .answer response_text
  | .error (.clientError m) =>
    let msg := if isQuotaError m then quotaExceededMsg else apiErrorMsg m
    if return_sources then .answerWithSources msg [] else .answer msg
  | .error (.otherErr _) =>
    if return_sources then .answerWithSources genericErrorMsg [] else .answer genericErrorMsg

/-- `RAGService.query` (`pipeline.py` lines 112-149): run the pipeline with
`k = 5` (line 125) and translate the outcome through the exception handlers. -/
def RAGService.query (embedStep : Except String Unit)
    (llm : String → List String → Except PyErr LlmResponse)
    (ranked : List Chunk) (user_input : String) (return_sources : Bool) : QueryOut :=
  queryHandle (pipelineRun embedStep llm ranked 5 user_input) return_sources

/-- The state `RAGService.__init__` leaves behind: whether a real Qdrant
client was connected (the storage directory existed), and the chunks the
retriever can see (the on-disk collection, or nothing when the service fell
back to the fresh in-memory store). -/
structure ServiceState where
  storageConnected : Bool
  storeChunks : List Chunk
deriving DecidableEq, Repr

/-- Environment of `RAGService.__init__`: the `GOOGLE_API_KEY` value, the
outcome of loading the local embedding model, whether `STORAGE_DIR` exists,
and the chunks stored on disk there. -/
structure RagInitEnv where
  apiKey : Option String
  embedderLoad : Except String Unit
  storageExists : Bool
  diskChunks : List Chunk

/-- `RAGService.__init__` (`pipeline.py` lines 66-110): raise `ValueError`
when the API key is missing, propagate an embedder-load failure, otherwise
connect to the on-disk store when `STORAGE_DIR` exists and fall back to the
empty in-memory store (with a warning) when it does not. -/
def RAGService.mkService (env : RagInitEnv) : Except PyErr ServiceState :=
  match env.apiKey with
  | none => .error (.otherErr "❌ GOOGLE_API_KEY is missing from .env")
  | some _ =>
    match env.embedderLoad with
    | .error m => .error (.otherErr m)
    | .ok _ =>
      if env.storageExists then .ok ⟨true, env.diskChunks⟩
      else .ok ⟨false, []⟩

/-- Identity of the bot account as seen by the front end
(`context.bot.id`, `context.bot.username`). -/
structure BotInfo where
  id : Nat
  username : String

/-- The fields of an incoming Telegram text message that `handle_message`
reads: the text, the chat type, and, when the message is a reply, the user
id of the sender of the replied-to message. -/
structure TgMessage where
  text : String
  chatType : String
  replyToFromId : Option Nat

/-- What one `handle_message` invocation did: the questions it forwarded to
the RAG pipeline (`rag_pipeline.query`) and the reply texts it sent, in
order. -/
structure HandlerTrace where
  queries : List String
  replies : List String
deriving DecidableEq, Repr

/-- Fallback reply when the module-level pipeline handle is `None`
(`bot.py` line 152). -/
def ragNotInitializedMsg : String := "⚠️ Sistema RAG non inizializzato. Impossibile rispondere."

/-- The reply-to-the-bot test at `bot.py` line 139:
`update.message.reply_to_message and update.message.reply_to_message.from_user.id == context.bot.id`. -/
def isReplyToBot (bot : BotInfo) (m : TgMessage) : Bool :=
  match m.replyToFromId with
  | some i => i == bot.id
  | none => false

/-- The mention test at `bot.py` line 139: `f"@{context.bot.username}" in user_query`. -/
def mentionsBot (bot : BotInfo) (m : TgMessage) : Bool :=
  containsSeq ("@" ++ bot.username).toList m.text.toList

/-- The group-gating condition of `bot.py` lines 138-140: a message in a
group or supergroup chat is silently ignored unless it replies to the bot
or mentions the bot. -/
def ignoredInGroup (bot : BotInfo) (m : TgMessage) : Bool :=
  (m.chatType == "group" || m.chatType == "supergroup")
    && !(isReplyToBot bot m) && !(mentionsBot bot m)

/-- List of chunks of at most 4096 characters, mirroring the loop at
`bot.py` lines 159-161: `for i in range(0, len(response), max_length):
response[i:i + max_length]`. -/
def splitChunks (s : List Char) : List (List Char) :=
  if h : s = [] then []
  else s.take 4096 :: splitChunks (s.drop 4096)
termination_by s.length
decreasing_by
  have hl : s.length ≠ 0 := fun hn => h (List.eq_nil_of_length_eq_zero hn)
  simp only [List.length_drop]
  omega

/-- The reply step of `handle_message` (`bot.py` lines 156-163): when the
response exceeds 4096 characters it is sent in consecutive 4096-character
slices, otherwise it is sent as a single reply. -/
def sendReplies (response : String) : List String :=
  if response.length > 4096 then (splitChunks response.toList).map String.mk
  else [response]

/-- `handle_message` (`bot.py` lines 126-168): ignore gated group messages;
otherwise query the RAG pipeline when the module-level handle is set, or
fall back to the fixed not-initialized message, and send the response
(split into chunks when oversized).  `ragPipeline` is the module-level
`rag_pipeline` handle, carried as the query closure when construction
succeeded. -/
def handle_message (bot : BotInfo) (ragPipeline : Option (String → String))
    (m : TgMessage) : HandlerTrace :=
  if ignoredInGroup bot m then ⟨[], []⟩
  else
    match ragPipeline with
    | some query => ⟨[m.text], sendReplies (query m.text)⟩
    | none => ⟨[], sendReplies ragNotInitializedMsg⟩

/-- The module-level initialization at `bot.py` lines 41-45:
`rag_pipeline = RAGService()` inside `try`, set to `None` when the
constructor raises; the module keeps loading either way. -/
def botModuleRag (ctor : Except PyErr (String → String)) : Option (String → String) :=
  match ctor with
  | .ok svc => some svc
  | .error _ => none

/-- The raw YAML configuration read by `build_index` (`ingestion.py`
lines 66-74); every field is optional and has a default at the read site. -/
structure RawIngestConfig where
  embedding_model : Option String
  chunk_size : Option Nat
  collection_name : Option String
  data_dir : Option String
  storage_dir : Option String
  cache_dir : Option String
deriving DecidableEq, Repr

/-- Outcome of `load_config` (`ingestion.py` lines 53-58): `sys.exit(1)`
when the file is missing, an ordinary exception when parsing raises
(`yaml.safe_load` runs outside any handler), or the parsed configuration. -/
inductive ConfigLoad where
  | missingFile
  | parseError (msg : String)
  | loaded (cfg : RawIngestConfig)
deriving Repr

/-- A Qdrant collection: its vector dimensionality fixed at creation, and
its stored chunk entries in insertion order. -/
structure Collection where
  dim : Nat
  entries : List Chunk
deriving DecidableEq, Repr

/-- The on-disk vector store: named collections in creation order. -/
abbrev Store := List (String × Collection)

/-- `real_client.collection_exists(collection_name)` (`ingestion.py` line 109). -/
def Store.existsCol (st : Store) (name : String) : Bool :=
  st.any (fun p => p.1 == name)

/-- `real_client.create_collection(...)` (`ingestion.py` lines 111-114):
adds a fresh empty collection of the given dimensionality. -/
def Store.createCol (st : Store) (name : String) (dim : Nat) : Store :=
  st ++ [(name, ⟨dim, []⟩)]

/-- Lookup of a collection by name. -/
def Store.getCol (st : Store) (name : String) : Option Collection :=
  (st.find? (fun p => p.1 == name)).map Prod.snd

/-- Modelled from the spec: the write step of the external datapizza
`IngestionPipeline.run` (not part of this repository) writes all newly
produced chunk+vector pairs into the named collection; per the spec the
semantics is idempotent-by-append — prior entries are never deleted or
overwritten, new chunks are appended. -/
def Store.upsertChunks (st : Store) (name : String) (cs : List Chunk) : Store :=
  st.map (fun p => if p.1 == name then (p.1, ⟨p.2.dim, p.2.entries ++ cs⟩) else p)

/-- Environment of one `build_index` run: the configuration-load outcome,
the outcome of initializing the parser/splitter/embedder/Qdrant client
(`ingestion.py` lines 77-106), whether the source data directory exists,
the files found under it, the chunks the parse/split/embed stages produce
from those files, and the outcome of `pipeline.run`. -/
structure IngestEnv where
  configLoad : ConfigLoad
  componentInit : Except String Unit
  dataDirExists : Bool
  files : List String
  newChunks : List Chunk
  pipelineRunOk : Except String Unit

/-- How a `build_index` call ends: a normal return, `sys.exit(code)`
(a `SystemExit`, which `except Exception` does not catch, so the process
terminates), or an ordinary exception propagated to the caller. -/
inductive BuildResult where
  | ok
  | exited (code : Nat)
  | raised (msg : String)
deriving DecidableEq, Repr

/-- `build_index` (`ingestion.py` lines 60-143) as a transformer of the
vector store.  Flow: load the configuration (missing file exits 1, a parse
error propagates); inside `try`: initialize components (any exception is
caught at line 141 and exits 1), create the collection with dimensionality
384 only when it does not already exist, then return early when the data
directory is missing or no files are found, and otherwise run the ingestion
pipeline, whose failure also exits 1. -/
def build_index (env : IngestEnv) (st : Store) : BuildResult × Store :=
  match env.configLoad with
  | .missingFile => (.exited 1, st)
  | .parseError m => (.raised m, st)
  | .loaded cfg =>
    let collection_name := cfg.collection_name.getD "my_knowledge_base"
    match env.componentInit with
    | .error _ => (.exited 1, st)
    | .ok _ =>
      let st1 := if st.existsCol collection_name then st
                 else st.createCol collection_name 384
      if !env.dataDirExists then (.ok, st1)
      else if env.files.isEmpty then (.ok, st1)
      else
        match env.pipelineRunOk with
        | .error _ => (.exited 1, st1)
        | .ok _ => (.ok, st1.upsertChunks collection_name env.newChunks)

/-- How an `/update_kb` invocation ends for the front end: a reply sent to
the chat, or process termination (an uncaught `SystemExit`). -/
inductive KbOutcome where
  | replied (text : String)
  | processTerminated (code : Nat)
deriving DecidableEq, Repr

/-- `update_kb` (`bot.py` lines 102-117): run the ingestion job inside
`try/except Exception`; a normal return is answered with the success reply,
an ordinary exception with the failure reply, while a `SystemExit` from
`sys.exit` inside `build_index` passes through `except Exception` and
terminates the bot process. -/
def update_kb (env : IngestEnv) (st : Store) : KbOutcome × Store :=
  match build_index env st with
  | (.ok, st2) => (.replied "Knowledge base updated successfully!", st2)
  | (.raised _, st2) => (.replied "Error updating knowledge base.", st2)
  | (.exited c, st2) => (.processTerminated c, st2)

theorem splitChunks_flatten (s : List Char) : (splitChunks s).flatten = s := by
  induction s using splitChunks.induct with
  | case1 => simp [splitChunks]
  | case2 s h ih => rw [splitChunks]; simp [h, ih]

theorem splitChunks_length (s : List Char) :
    (splitChunks s).length = (s.length + 4095) / 4096 := by
  induction s using splitChunks.induct with
  | case1 => simp [splitChunks]
  | case2 s h ih =>
    rw [splitChunks]
    have hl : s.length ≠ 0 := fun hn => h (List.eq_nil_of_length_eq_zero hn)
    simp only [h, dite_false, List.length_cons, ih, List.length_drop]
    omega

theorem splitChunks_sizes (s : List Char) :
    ∀ c ∈ splitChunks s, c.length ≤ 4096 := by
  induction s using splitChunks.induct with
  | case1 => simp [splitChunks]
  | case2 s h ih =>
    rw [splitChunks]
    simp only [h, dite_false]
    intro c hc
    rcases List.mem_cons.mp hc with rfl | hc
    · simp [List.length_take]
    · exact ih c hc

theorem foldl_append_mk (l : List (List Char)) (a : List Char) :
    List.foldl (fun r s => r ++ s) (String.mk a) (l.map String.mk)
      = String.mk (a ++ l.flatten) := by
  induction l generalizing a with
  | nil => simp
  | cons x xs ih =>
    simp only [List.map_cons, List.foldl_cons, List.flatten_cons]
    rw [show String.mk a ++ String.mk x = String.mk (a ++ x) from rfl, ih]
    simp

theorem join_map_mk (l : List (List Char)) :
    String.join (l.map String.mk) = String.mk l.flatten := by
  have h := foldl_append_mk l []
  simpa [String.join] using h

/-- C2: a response longer than 4096 characters is sent as exactly
`ceil(len/4096)` consecutive reply chunks, in order, each of length at most
4096, whose concatenation is the original response; a response of length at
most 4096 is sent as exactly one reply (`bot.py` lines 154-163). -/
theorem handle_message_chunking (response : String) :
    (4096 < response.length →
      (sendReplies response).length = (response.length + 4095) / 4096 ∧
      (∀ r ∈ sendReplies response, r.length ≤ 4096) ∧
      String.join (sendReplies response) = response) ∧
    (response.length ≤ 4096 → sendReplies response = [response]) := by
  constructor
  · intro hgt
    have hsend : sendReplies response = (splitChunks response.toList).map String.mk := by
      rw [sendReplies, if_pos hgt]
    refine ⟨?_, ?_, ?_⟩
    · rw [hsend, List.length_map, splitChunks_length]
      rfl
    · intro r hr
      rw [hsend] at hr
      obtain ⟨c, hc, rfl⟩ := List.mem_map.mp hr
      exact splitChunks_sizes response.toList c hc
    · rw [hsend, join_map_mk, splitChunks_flatten]
      rfl
  · intro hle
    rw [sendReplies, if_neg (by omega)]

/-- Witness for C2 at a 4097-character response and at a short response. -/
theorem handle_message_chunking_witness :
    (sendReplies (String.mk (List.replicate 4097 'a'))).length = 2 ∧
    sendReplies "ciao" = ["ciao"] := by
  constructor
  · have h := (handle_message_chunking (String.mk (List.replicate 4097 'a'))).1
      (by rw [String.length_mk, List.length_replicate]; omega)
    rw [h.1, String.length_mk, List.length_replicate]
  · exact (handle_message_chunking "ciao").2 (by decide)

/-- C4: in a group or supergroup chat, a text message that neither replies
to the bot nor contains the `@<botname>` mention produces no query and no
reply; a message containing the mention produces exactly one invocation of
the answer flow (`bot.py` lines 136-144). -/
theorem group_message_gating (bot : BotInfo) (q : String → String) (m : TgMessage)
    (hg : m.chatType = "group" ∨ m.chatType = "supergroup") :
    (isReplyToBot bot m = false → mentionsBot bot m = false →
       handle_message bot (some q) m = ⟨[], []⟩) ∧
    (mentionsBot bot m = true →
       (handle_message bot (some q) m).queries = [m.text]) := by
  have hct : (m.chatType == "group" || m.chatType == "supergroup") = true := by
    rcases hg with h | h <;> simp [h]
  constructor
  · intro h1 h2
    simp [handle_message, ignoredInGroup, hct, h1, h2]
  · intro hm
    simp [handle_message, ignoredInGroup, hm]

/-- Witness for C4: a plain group message is ignored; a mentioning group
message is answered once. -/
theorem group_message_gating_witness :
    handle_message ⟨7, "rudybot"⟩ (some (fun s => s)) ⟨"ciao a tutti", "group", none⟩
        = ⟨[], []⟩ ∧
    (handle_message ⟨7, "rudybot"⟩ (some (fun s => s))
        ⟨"ciao @rudybot", "group", none⟩).queries = ["ciao @rudybot"] := by
  constructor
  · exact (group_message_gating ⟨7, "rudybot"⟩ (fun s => s) ⟨"ciao a tutti", "group", none⟩
      (Or.inl rfl)).1 (by decide) (by decide)
  · exact (group_message_gating ⟨7, "rudybot"⟩ (fun s => s) ⟨"ciao @rudybot", "group", none⟩
      (Or.inl rfl)).2 (by decide)

/-- C10: when the `RAGService` constructor raises at module load, the
front end keeps the pipeline handle as `None` and still serves updates;
every eligible free-text message then gets exactly the fixed
not-initialized reply and the orchestrator is never invoked
(`bot.py` lines 41-45 and 146-152). -/
theorem rag_uninitialized_fallback (e : PyErr) (bot : BotInfo) (m : TgMessage)
    (h : ignoredInGroup bot m = false) :
    botModuleRag (.error e) = none ∧
    handle_message bot (botModuleRag (.error e)) m = ⟨[], [ragNotInitializedMsg]⟩ := by
  refine ⟨rfl, ?_⟩
  have hs : sendReplies ragNotInitializedMsg = [ragNotInitializedMsg] := by decide
  simp [handle_message, botModuleRag, h, hs]

/-- Witness for C10 at a private-chat message after a failed construction. -/
theorem rag_uninitialized_fallback_witness :
    handle_message ⟨7, "rudybot"⟩ (botModuleRag (.error (.otherErr "boom")))
      ⟨"che orari fate?", "private", none⟩ = ⟨[], [ragNotInitializedMsg]⟩ :=
  (rag_uninitialized_fallback (.otherErr "boom") ⟨7, "rudybot"⟩
    ⟨"che orari fate?", "private", none⟩ (by decide)).2

/-- C1 counterexample: a `ClientError` whose text contains neither `429`
nor `RESOURCE_EXHAUSTED` does not yield the generic error message; it
yields `API Error: <detail>` instead, so "any other exception yields the
generic error message" is false at this input. -/
theorem query_nonquota_clienterror_counterexample :
    RAGService.query (.ok ()) (fun _ _ => .error (.clientError "server overloaded")) []
        "ciao" false = QueryOut.answer (apiErrorMsg "server overloaded") ∧
    RAGService.query (.ok ()) (fun _ _ => .error (.clientError "server overloaded")) []
        "ciao" false ≠ QueryOut.answer genericErrorMsg := by
  constructor
  · rfl
  · decide

/-- C1 (amended): for every question and every exception raised by an inner
pipeline step, `RAGService.query` returns a normal `QueryOut` value and
never propagates the exception; a `ClientError` containing `429` or
`RESOURCE_EXHAUSTED` yields the fixed quota-exceeded message, a
`ClientError` without those markers yields `API Error: <detail>`, and any
other exception (including one raised before the generative call, such as
an embedding failure) yields the generic error message. -/
theorem query_error_translation (e : PyErr) (em : String) (ranked : List Chunk)
    (input : String) (rs : Bool)
    (llm : String → List String → Except PyErr LlmResponse) :
    RAGService.query (.ok ()) (fun _ _ => .error e) ranked input rs =
      (match e with
       | .clientError m =>
         if isQuotaError m then
           (if rs then QueryOut.answerWithSources quotaExceededMsg []
            else QueryOut.answer quotaExceededMsg)
         else
           (if rs then QueryOut.answerWithSources (apiErrorMsg m) []
            else QueryOut.answer (apiErrorMsg m))
       | .otherErr _ =>
         if rs then QueryOut.answerWithSources genericErrorMsg []
         else QueryOut.answer genericErrorMsg) ∧
    RAGService.query (.error em) llm ranked input rs =
      (if rs then QueryOut.answerWithSources genericErrorMsg []
       else QueryOut.answer genericErrorMsg) := by
  constructor
  · cases e with
    | clientError m =>
      by_cases hq : isQuotaError m <;>
        cases rs <;> simp [RAGService.query, pipelineRun, queryHandle, hq]
    | otherErr m =>
      cases rs <;> simp [RAGService.query, pipelineRun, queryHandle]
  · cases rs <;> simp [RAGService.query, pipelineRun, queryHandle]

/-- C6 counterexample: a non-quota `ClientError` puts the raw exception
text into the user-facing answer string (`API Error: <detail>`), so the
returned string does include the caught exception detail at this input. -/
theorem query_error_detail_leak_counterexample :
    (RAGService.query (.ok ())
        (fun _ _ => .error (.clientError "database timeout at host 10.0.0.5")) []
        "domanda" false).answerText
      = apiErrorMsg "database timeout at host 10.0.0.5" ∧
    containsSeq "database timeout at host 10.0.0.5".toList
      (RAGService.query (.ok ())
        (fun _ _ => .error (.clientError "database timeout at host 10.0.0.5")) []
        "domanda" false).answerText.toList = true := by
  constructor
  · rfl
  · decide

/-- C6 (amended): the user-facing string returned by `RAGService.query` is
a fixed constant, independent of the caught exception text, for every
non-`ClientError` exception (the generic error message) and for every
quota-marked `ClientError` (the quota-exceeded message); only a
`ClientError` without the quota markers carries the raw exception detail,
as `API Error: <detail>`. -/
theorem query_error_detail_policy (m : String) (ranked : List Chunk)
    (input : String) (rs : Bool) :
    (RAGService.query (.ok ()) (fun _ _ => .error (.otherErr m)) ranked input rs).answerText
        = genericErrorMsg ∧
    (isQuotaError m = true →
      (RAGService.query (.ok ()) (fun _ _ => .error (.clientError m)) ranked
          input rs).answerText = quotaExceededMsg) ∧
    (isQuotaError m = false →
      (RAGService.query (.ok ()) (fun _ _ => .error (.clientError m)) ranked
          input rs).answerText = apiErrorMsg m) := by
  refine ⟨?_, ?_, ?_⟩
  · cases rs <;> simp [RAGService.query, pipelineRun, queryHandle, QueryOut.answerText]
  · intro hq
    cases rs <;>
      simp [RAGService.query, pipelineRun, queryHandle, QueryOut.answerText, hq]
  · intro hq
    cases rs <;>
      simp [RAGService.query, pipelineRun, queryHandle, QueryOut.answerText, hq]

/-- Witness for the amended C6 at three concrete exceptions. -/
theorem query_error_detail_policy_witness :
    (RAGService.query (.ok ()) (fun _ _ => .error (.otherErr "disk failure")) []
        "q" false).answerText = genericErrorMsg ∧
    (RAGService.query (.ok ())
        (fun _ _ => .error (.clientError "HTTP 429 RESOURCE_EXHAUSTED")) []
        "q" false).answerText = quotaExceededMsg ∧
    (RAGService.query (.ok ()) (fun _ _ => .error (.clientError "bad request")) []
        "q" false).answerText = apiErrorMsg "bad request" :=
  ⟨(query_error_detail_policy "disk failure" [] "q" false).1,
   (query_error_detail_policy "HTTP 429 RESOURCE_EXHAUSTED" [] "q" false).2.1 (by decide),
   (query_error_detail_policy "bad request" [] "q" false).2.2 (by decide)⟩

/-- C3: when the storage path does not exist at construction time,
`RAGService.__init__` still succeeds, falling back to the empty in-memory
store; a query with `return_sources=True` then returns the generative
client answer computed over an empty context, paired with an empty
retrieval result. -/
theorem storage_missing_llm_only (env : RagInitEnv) (k : String)
    (hk : env.apiKey = some k) (hl : env.embedderLoad = .ok ())
    (hs : env.storageExists = false)
    (ranked : List Chunk) (hr : ranked.Perm ([] : List Chunk))
    (llm : String → List String → Except PyErr LlmResponse)
    (q : String) (r : LlmResponse) (hllm : llm q [] = .ok r) :
    RAGService.mkService env = .ok ⟨false, []⟩ ∧
    RAGService.query (.ok ()) llm ranked q true
      = QueryOut.answerWithSources (responseText r) [] := by
  constructor
  · simp [RAGService.mkService, hk, hl, hs]
  · have hnil : ranked = [] := hr.eq_nil
    subst hnil
    simp [RAGService.query, pipelineRun, qdrantRetrieve, queryHandle, hllm]

/-- Witness for C3 at a concrete missing-storage environment. -/
theorem storage_missing_llm_only_witness :
    RAGService.mkService ⟨some "KEY", .ok (), false, []⟩ = .ok ⟨false, []⟩ ∧
    RAGService.query (.ok ()) (fun _ _ => .ok (.withText "Apriamo alle 8."))
        [] "Quali sono gli orari?" true
      = QueryOut.answerWithSources "Apriamo alle 8." [] :=
  storage_missing_llm_only ⟨some "KEY", .ok (), false, []⟩ "KEY" rfl rfl rfl
    [] (List.Perm.refl []) (fun _ _ => .ok (.withText "Apriamo alle 8."))
    "Quali sono gli orari?" (.withText "Apriamo alle 8.") rfl

/-- C9: on the happy path (pipeline steps succeed and the generative client
produces a non-empty answer), `RAGService.query` with `return_sources=True`
returns the pair of the extracted answer text and the retrieval result,
where the retrieval result has length at most the configured `k = 5` and
the answer string is non-empty. -/
theorem query_happy_path_sources (llm : String → List String → Except PyErr LlmResponse)
    (ranked : List Chunk) (q : String) (r : LlmResponse)
    (hllm : llm q ((qdrantRetrieve ranked 5).map Chunk.text) = .ok r)
    (hne : responseText r ≠ "") :
    RAGService.query (.ok ()) llm ranked q true
        = QueryOut.answerWithSources (responseText r) (qdrantRetrieve ranked 5) ∧
    (qdrantRetrieve ranked 5).length ≤ 5 ∧
    responseText r ≠ "" := by
  refine ⟨?_, ?_, hne⟩
  · simp [RAGService.query, pipelineRun, queryHandle, hllm]
  · rw [qdrantRetrieve, List.length_take]
    exact min_le_left _ _

/-- Witness for C9 at a store of six chunks and a concrete client answer. -/
theorem query_happy_path_sources_witness :
    RAGService.query (.ok ()) (fun _ _ => .ok (.withText "Dalle 8 alle 20."))
        [⟨"c1", "a"⟩, ⟨"c2", "a"⟩, ⟨"c3", "a"⟩, ⟨"c4", "a"⟩, ⟨"c5", "a"⟩, ⟨"c6", "a"⟩]
        "orari?" true
      = QueryOut.answerWithSources "Dalle 8 alle 20."
          [⟨"c1", "a"⟩, ⟨"c2", "a"⟩, ⟨"c3", "a"⟩, ⟨"c4", "a"⟩, ⟨"c5", "a"⟩] ∧
    (qdrantRetrieve
        [⟨"c1", "a"⟩, ⟨"c2", "a"⟩, ⟨"c3", "a"⟩, ⟨"c4", "a"⟩, ⟨"c5", "a"⟩, ⟨"c6", "a"⟩]
        5).length ≤ 5 :=
  ⟨(query_happy_path_sources (fun _ _ => .ok (.withText "Dalle 8 alle 20."))
      [⟨"c1", "a"⟩, ⟨"c2", "a"⟩, ⟨"c3", "a"⟩, ⟨"c4", "a"⟩, ⟨"c5", "a"⟩, ⟨"c6", "a"⟩]
      "orari?" (.withText "Dalle 8 alle 20.") rfl (by decide)).1,
   (query_happy_path_sources (fun _ _ => .ok (.withText "Dalle 8 alle 20."))
      [⟨"c1", "a"⟩, ⟨"c2", "a"⟩, ⟨"c3", "a"⟩, ⟨"c4", "a"⟩, ⟨"c5", "a"⟩, ⟨"c6", "a"⟩]
      "orari?" (.withText "Dalle 8 alle 20.") rfl (by decide)).2.1⟩

theorem store_find_any (l : List (String × Collection)) (p : String × Collection → Bool) :
    (l.find? p).isSome = l.any p := by
  induction l with
  | nil => rfl
  | cons x t ih =>
    rw [List.any_cons]
    cases hp : p x
    · rw [List.find?_cons_of_neg _ (by simp [hp]), ih]
      simp
    · rw [List.find?_cons_of_pos _ hp]
      simp

theorem Store.existsCol_eq_isSome (st : Store) (name : String) :
    st.existsCol name = (st.getCol name).isSome := by
  rw [Store.existsCol, Store.getCol, ← store_find_any]
  cases st.find? (fun p => p.1 == name) <;> rfl

theorem Store.getCol_createCol_self (st : Store) (name : String) (dim : Nat)
    (h : st.getCol name = none) :
    (st.createCol name dim).getCol name = some ⟨dim, []⟩ := by
  have hf : st.find? (fun p => p.1 == name) = none := by
    rw [Store.getCol] at h
    exact Option.map_eq_none'.mp h
  rw [Store.createCol, Store.getCol, List.find?_append, hf]
  simp

theorem Store.getCol_createCol_ne (st : Store) (name n2 : String) (dim : Nat)
    (h : n2 ≠ name) :
    (st.createCol name dim).getCol n2 = st.getCol n2 := by
  rw [Store.createCol, Store.getCol, Store.getCol, List.find?_append]
  have hx : List.find? (fun p => p.1 == n2) [(name, (⟨dim, []⟩ : Collection))] = none := by
    simp [Ne.symm h]
  rw [hx]
  simp

theorem Store.getCol_upsert_self (st : Store) (name : String) (cs : List Chunk) :
    (st.upsertChunks name cs).getCol name
      = (st.getCol name).map (fun c => ⟨c.dim, c.entries ++ cs⟩) := by
  rw [Store.upsertChunks, Store.getCol, List.find?_map]
  have hp : ((fun p => p.1 == name) ∘
        (fun p : String × Collection =>
          if p.1 == name then (p.1, (⟨p.2.dim, p.2.entries ++ cs⟩ : Collection)) else p))
      = (fun p : String × Collection => p.1 == name) := by
    funext x
    by_cases hx : (x.1 == name) = true <;> simp [Function.comp, hx]
  rw [hp, Store.getCol]
  cases hf : st.find? (fun p => p.1 == name) with
  | none => simp
  | some x =>
    have heq : x.1 = name := by simpa using List.find?_some hf
    simp [heq]

theorem Store.getCol_upsert_ne (st : Store) (name n2 : String) (cs : List Chunk)
    (h : n2 ≠ name) :
    (st.upsertChunks name cs).getCol n2 = st.getCol n2 := by
  rw [Store.upsertChunks, Store.getCol, List.find?_map]
  have hp : ((fun p => p.1 == n2) ∘
        (fun p : String × Collection =>
          if p.1 == name then (p.1, (⟨p.2.dim, p.2.entries ++ cs⟩ : Collection)) else p))
      = (fun p : String × Collection => p.1 == n2) := by
    funext x
    by_cases hx : (x.1 == name) = true <;> simp [Function.comp, hx]
  rw [hp, Store.getCol]
  cases hf : st.find? (fun p => p.1 == n2) with
  | none => simp
  | some x =>
    have hx2 : x.1 = n2 := by simpa using List.find?_some hf
    have hne : ¬ x.1 = name := by rw [hx2]; exact h
    simp [hne]

/-- C7: `build_index` returns normally when the data directory is missing
or no files are found, and exits the process with status 1 whenever
component initialization or the pipeline run raises
(`ingestion.py` lines 124-132 and 141-143). -/
theorem build_index_outcomes (env : IngestEnv) (st : Store) (cfg : RawIngestConfig)
    (hc : env.configLoad = .loaded cfg) :
    (env.componentInit = .ok () → env.dataDirExists = false →
       (build_index env st).1 = .ok) ∧
    (env.componentInit = .ok () → env.files = [] →
       (build_index env st).1 = .ok) ∧
    (∀ m, env.componentInit = .error m → (build_index env st).1 = .exited 1) ∧
    (∀ m, env.componentInit = .ok () → env.dataDirExists = true →
       env.files ≠ [] → env.pipelineRunOk = .error m →
       (build_index env st).1 = .exited 1) := by
  refine ⟨fun hi hd => ?_, fun hi hf => ?_, fun m hi => ?_, fun m hi hd hf hr => ?_⟩
  · simp [build_index, hc, hi, hd]
  · cases hdd : env.dataDirExists <;> simp [build_index, hc, hi, hdd, hf]
  · simp [build_index, hc, hi]
  · have hfe : env.files.isEmpty = false := by
      cases henv : env.files with
      | nil => exact absurd henv hf
      | cons a t => rfl
    simp [build_index, hc, hi, hd, hfe, hr]

/-- Witness for C7: a missing data directory returns normally; an
initialization failure and a pipeline-run failure both exit with status 1. -/
theorem build_index_outcomes_witness :
    (build_index ⟨.loaded ⟨none, none, none, none, none, none⟩, .ok (),
        false, [], [], .ok ()⟩ []).1 = .ok ∧
    (build_index ⟨.loaded ⟨none, none, none, none, none, none⟩,
        .error "docling import failed", true, ["f.pdf"], [], .ok ()⟩ []).1 = .exited 1 ∧
    (build_index ⟨.loaded ⟨none, none, none, none, none, none⟩, .ok (),
        true, ["f.pdf"], [], .error "parser crash"⟩ []).1 = .exited 1 :=
  ⟨(build_index_outcomes _ [] _ rfl).1 rfl rfl,
   (build_index_outcomes _ [] _ rfl).2.2.1 "docling import failed" rfl,
   (build_index_outcomes _ [] _ rfl).2.2.2 "parser crash" rfl rfl (by simp) rfl⟩

/-- C8: re-running `build_index` over a store that already holds the
collection does not raise and does not recreate the collection: the
dimensionality and every previously stored entry are kept and the newly
produced chunks are appended; the collection is created (with vector
dimensionality 384) only when absent, and collections under other names
are untouched (`ingestion.py` lines 108-114 and 137). -/
theorem build_index_append_semantics (env : IngestEnv) (st : Store)
    (cfg : RawIngestConfig) (hc : env.configLoad = .loaded cfg)
    (hi : env.componentInit = .ok ()) (hd : env.dataDirExists = true)
    (hf : env.files ≠ []) (hr : env.pipelineRunOk = .ok ()) :
    (∀ c, st.getCol (cfg.collection_name.getD "my_knowledge_base") = some c →
       (build_index env st).1 = .ok ∧
       (build_index env st).2.getCol (cfg.collection_name.getD "my_knowledge_base")
         = some ⟨c.dim, c.entries ++ env.newChunks⟩) ∧
    (st.getCol (cfg.collection_name.getD "my_knowledge_base") = none →
       (build_index env st).1 = .ok ∧
       (build_index env st).2.getCol (cfg.collection_name.getD "my_knowledge_base")
         = some ⟨384, env.newChunks⟩) ∧
    (∀ n2, n2 ≠ cfg.collection_name.getD "my_knowledge_base" →
       (build_index env st).2.getCol n2 = st.getCol n2) := by
  have hfe : env.files.isEmpty = false := by
    cases henv : env.files with
    | nil => exact absurd henv hf
    | cons a t => rfl
  have hbi : build_index env st =
      (.ok, (if st.existsCol (cfg.collection_name.getD "my_knowledge_base") then st
             else st.createCol (cfg.collection_name.getD "my_knowledge_base") 384).upsertChunks
               (cfg.collection_name.getD "my_knowledge_base") env.newChunks) := by
    simp [build_index, hc, hi, hd, hfe, hr]
  refine ⟨fun c hcol => ?_, fun hcol => ?_, fun n2 hn2 => ?_⟩
  · have hex : st.existsCol (cfg.collection_name.getD "my_knowledge_base") = true := by
      rw [Store.existsCol_eq_isSome, hcol]
      rfl
    rw [hbi]
    refine ⟨rfl, ?_⟩
    simp only [hex, if_true]
    rw [Store.getCol_upsert_self, hcol]
    rfl
  · have hex : st.existsCol (cfg.collection_name.getD "my_knowledge_base") = false := by
      rw [Store.existsCol_eq_isSome, hcol]
      rfl
    rw [hbi]
    refine ⟨rfl, ?_⟩
    simp only [hex, Bool.false_eq_true, if_false]
    rw [Store.getCol_upsert_self, Store.getCol_createCol_self st _ 384 hcol]
    simp
  · rw [hbi]
    cases hex : st.existsCol (cfg.collection_name.getD "my_knowledge_base") with
    | true =>
      simp only [hex, if_true]
      rw [Store.getCol_upsert_ne _ _ _ _ hn2]
    | false =>
      simp only [hex, Bool.false_eq_true, if_false]
      rw [Store.getCol_upsert_ne _ _ _ _ hn2, Store.getCol_createCol_ne _ _ _ _ hn2]

/-- Witness for C8: a second run over a store already holding the
collection appends the new chunk after the existing one. -/
theorem build_index_append_semantics_witness :
    (build_index ⟨.loaded ⟨none, none, none, none, none, none⟩, .ok (), true,
        ["b.pdf"], [⟨"nuovo", "b.pdf"⟩], .ok ()⟩
      [("my_knowledge_base", ⟨384, [⟨"vecchio", "a.pdf"⟩]⟩)]).1 = .ok ∧
    (build_index ⟨.loaded ⟨none, none, none, none, none, none⟩, .ok (), true,
        ["b.pdf"], [⟨"nuovo", "b.pdf"⟩], .ok ()⟩
      [("my_knowledge_base", ⟨384, [⟨"vecchio", "a.pdf"⟩]⟩)]).2.getCol "my_knowledge_base"
      = some ⟨384, [⟨"vecchio", "a.pdf"⟩, ⟨"nuovo", "b.pdf"⟩]⟩ :=
  (build_index_append_semantics
    ⟨.loaded ⟨none, none, none, none, none, none⟩, .ok (), true,
        ["b.pdf"], [⟨"nuovo", "b.pdf"⟩], .ok ()⟩
    [("my_knowledge_base", ⟨384, [⟨"vecchio", "a.pdf"⟩]⟩)]
    ⟨none, none, none, none, none, none⟩ rfl rfl rfl (by simp) rfl).1
    ⟨384, [⟨"vecchio", "a.pdf"⟩]⟩ rfl

/-- C5 counterexample: an exception during ingestion component
initialization makes `build_index` call `sys.exit(1)`; the resulting
`SystemExit` is not caught by the handler of `/update_kb`
(`except Exception`), so no reply is sent and the bot process terminates. -/
theorem update_kb_systemexit_counterexample :
    (update_kb ⟨.loaded ⟨none, none, none, none, none, none⟩,
        .error "embedder initialization failed", true, ["regolamento.pdf"], [], .ok ()⟩
      []).1 = .processTerminated 1 := rfl

/-- C5 (amended): `/update_kb` replies with the success message when the
ingestion job returns normally (including the missing-directory and
no-files early returns) and with the failure message when the job raises an
ordinary exception outside its own handler (a configuration parse error);
but when the job hits `sys.exit(1)` (any exception during component
initialization or the pipeline run, or a missing configuration file), the
`SystemExit` escapes `except Exception` and terminates the bot process
without a reply. -/
theorem update_kb_reporting (env : IngestEnv) (st : Store) :
    ((build_index env st).1 = .ok →
       (update_kb env st).1 = .replied "Knowledge base updated successfully!") ∧
    (∀ m, (build_index env st).1 = .raised m →
       (update_kb env st).1 = .replied "Error updating knowledge base.") ∧
    (∀ c, (build_index env st).1 = .exited c →
       (update_kb env st).1 = .processTerminated c) := by
  rcases hbe : build_index env st with ⟨res, st2⟩
  refine ⟨fun h1 => ?_, fun m hm => ?_, fun c hcx => ?_⟩
  · have hres : res = .ok := h1
    subst hres
    simp [update_kb, hbe]
  · have hres : res = .raised m := hm
    subst hres
    simp [update_kb, hbe]
  · have hres : res = .exited c := hcx
    subst hres
    simp [update_kb, hbe]

/-- Witness for the amended C5 at three concrete ingestion outcomes. -/
theorem update_kb_reporting_witness :
    (update_kb ⟨.loaded ⟨none, none, none, none, none, none⟩, .ok (),
        false, [], [], .ok ()⟩ []).1 = .replied "Knowledge base updated successfully!" ∧
    (update_kb ⟨.parseError "yaml scan error", .ok (), true, [], [], .ok ()⟩ []).1
        = .replied "Error updating knowledge base." ∧
    (update_kb ⟨.loaded ⟨none, none, none, none, none, none⟩, .ok (),
        true, ["a.pdf"], [], .error "docling crash"⟩ []).1 = .processTerminated 1 :=
  ⟨(update_kb_reporting ⟨.loaded ⟨none, none, none, none, none, none⟩, .ok (),
      false, [], [], .ok ()⟩ []).1 rfl,
   (update_kb_reporting ⟨.parseError "yaml scan error", .ok (), true, [], [],
      .ok ()⟩ []).2.1 "yaml scan error" rfl,
   (update_kb_reporting ⟨.loaded ⟨none, none, none, none, none, none⟩, .ok (),
      true, ["a.pdf"], [], .error "docling crash"⟩ []).2.2 1 rfl⟩
